import Mathlib

/-!
Verification of the translation-orchestrator core of the AIAgentTranslator
repository: a shallow embedding of `models/agent_result.py`,
`models/translation_context.py`, `agents/reviewer.py` (result construction,
score extraction), `agents/translator.py` / `agents/optimizer.py` (output
extraction, context mutation), `core/agent_orchestrator.py` (stage execution
with retry, the iterative state machine, fix mode, post-optimization review)
and `core/translation_pipeline.py` (input validation, error handling).

Modelling conventions:
  - Python exceptions are modelled with `Except` / explicit outcome types;
    a raised-and-absorbed exception is a branch of the embedded function.
  - LLM responses are external inputs: each agent invocation consumes the
    next scripted outcome (`Except String response`, `.error` = the client
    call raised after its own retries).  JSON decoding of a reviewer
    response is modelled at the parse-result boundary (`ReviewerResponse`):
    `.json d` is a response whose embedded JSON object decodes to `d`,
    `.text raw` a response on which decoding raises `JSONDecodeError`.
  - All four agents are present and enabled (the default configuration
    built by `AgentOrchestrator._init_agents`).
  - Timestamps, log strings, prompt construction and event payload strings
    are not modelled; event payloads are modelled by the fields the
    orchestrator puts routing information into (the `attempt` number).
  - Python `AgentResult` subclasses add attributes (`score`, `passed`,
    `issues`); `hasattr` checks are modelled by `Option` fields where
    `none` means the attribute is absent.
-/

namespace AIAgentTranslator

/-- Status enum of `models/agent_result.py` (`AgentStatus`). -/
inductive AgentStatus
  | pending
  | running
  | completed
  | failed
  | skipped
  deriving DecidableEq, Repr

/-- `models/agent_result.py` `AgentResult` together with the attributes its
subclasses (`ReviewResult`) add.  `score = none` / `passed = none` model a
result object that does not have the attribute at all (plain `AgentResult`),
mirroring the `hasattr` checks in the orchestrator. -/
structure AgentResult where
  agent_name : String
  status : AgentStatus
  output : String := ""
  error : Option String := none
  score : Option Int := none
  passed : Option Bool := none
  issues : List String := []
  deriving DecidableEq, Repr

/-- `models/translation_context.py` `TranslationContext`.  The dynamically
added `_fix_mode` attribute is modelled by `fix_mode` (absent ≡ `false`,
matching `hasattr(context, '_fix_mode') and context._fix_mode`);
`completed_at` being set is modelled by the boolean `completed_flag`;
`history` records the stages passed to `update_stage`. -/
structure TranslationContext where
  source_text : String
  target_language : String := "中文"
  max_iterations : Nat := 3
  current_stage : String := "init"
  iteration_count : Nat := 0
  analysis_result : Option AgentResult := none
  translation_result : Option AgentResult := none
  review_result : Option AgentResult := none
  optimization_result : Option AgentResult := none
  review2_result : Option AgentResult := none
  fix_mode : Bool := false
  history : List String := []
  completed_flag : Bool := false
  deriving DecidableEq, Repr

/-- Python truthiness of an optional result's `output` string, as used in
`get_final_translation` (`if self.optimization_result and
self.optimization_result.output:`). -/
def truthyOutput : Option AgentResult → Bool
  | some r => r.output ≠ ""
  | none => false

/-- `TranslationContext.get_final_translation`. -/
def get_final_translation (c : TranslationContext) : String :=
  if truthyOutput c.optimization_result then
    (c.optimization_result.map AgentResult.output).getD ""
  else if truthyOutput c.translation_result then
    (c.translation_result.map AgentResult.output).getD ""
  else
    ""

/-- Modelled from the spec's invariant wording (§3): "final translation" =
optimization-result output if present and non-empty, else translation-result
output (when present and non-empty), else empty string.  Written from the
spec's words, to be compared with `get_final_translation`. -/
def specFinalTranslation (c : TranslationContext) : String :=
  match c.optimization_result with
  | some o =>
    if o.output ≠ "" then o.output
    else
      match c.translation_result with
      | some t => if t.output ≠ "" then t.output else ""
      | none => ""
  | none =>
    match c.translation_result with
    | some t => if t.output ≠ "" then t.output else ""
    | none => ""

/-- `TranslationContext.update_stage`. -/
def update_stage (c : TranslationContext) (stage : String) : TranslationContext :=
  { c with current_stage := stage, history := c.history ++ [stage] }

/-- `TranslationContext.complete`: sets the completion timestamp and the
terminal `"completed"` stage marker. -/
def complete (c : TranslationContext) : TranslationContext :=
  { c with completed_flag := true, current_stage := "completed" }

/-- The ASCII whitespace characters stripped by Python's `str.strip()`
(the embedding restricts to the ASCII subset of Python's whitespace). -/
def pyIsSpace (ch : Char) : Bool :=
  ch = ' ' || ch = '\t' || ch = '\n' || ch = '\r' || ch = '\x0b' || ch = '\x0c'

/-- Python `str.strip()` on the character list: drop leading and trailing
whitespace. -/
def pyStripList (cs : List Char) : List Char :=
  ((cs.dropWhile pyIsSpace).reverse.dropWhile pyIsSpace).reverse

/-- Python `str.strip()`. -/
def pyStrip (s : String) : String :=
  String.mk (pyStripList s.toList)

/-- Numeric value of a run of decimal digits (the regex group `(\d+)`). -/
def digitsVal (ds : List Char) : Nat :=
  ds.foldl (fun a ch => 10 * a + (ch.toNat - '0'.toNat)) 0

/-- Match one character of the regex class `["']` and return the rest. -/
def matchQuote : List Char → Option (List Char)
  | ch :: rest => if ch = '"' || ch = '\'' then some rest else none
  | [] => none

/-- Match a literal character sequence and return the rest. -/
def matchLit : List Char → List Char → Option (List Char)
  | [], cs => some cs
  | p :: ps, ch :: cs => if ch = p then matchLit ps cs else none
  | _ :: _, [] => none

/-- Match one character of the regex class `[:：]` and return the rest. -/
def matchColonCh : List Char → Option (List Char)
  | ch :: rest => if ch = ':' || ch = '：' then some rest else none
  | [] => none

/-- `\s*` (greedy; for the score patterns no backtracking can ever help,
since what follows `\s*` is never itself whitespace). -/
def skipWs (cs : List Char) : List Char :=
  cs.dropWhile pyIsSpace

/-- Greedy `(\d+)`: the maximal digit run, required non-empty. -/
def matchDigits (cs : List Char) : Option (Nat × List Char) :=
  let ds := cs.takeWhile Char.isDigit
  if ds.isEmpty then none else some (digitsVal ds, cs.dropWhile Char.isDigit)

/-- `Reviewer._extract_score` pattern 1, tried at one position:
`["']score["']\s*:\s*(\d+)`. -/
def scorePat1At (cs : List Char) : Option Nat := do
  let cs ← matchQuote cs
  let cs ← matchLit "score".toList cs
  let cs ← matchQuote cs
  let cs ← matchLit [':'] (skipWs cs)
  let (v, _) ← matchDigits (skipWs cs)
  pure v

/-- Pattern 2, tried at one position: `Score[:：]\s*(\d+)`. -/
def scorePat2At (cs : List Char) : Option Nat := do
  let cs ← matchLit "Score".toList cs
  let cs ← matchColonCh cs
  let (v, _) ← matchDigits (skipWs cs)
  pure v

/-- Pattern 3, tried at one position: `Total[:：]\s*(\d+)`. -/
def scorePat3At (cs : List Char) : Option Nat := do
  let cs ← matchLit "Total".toList cs
  let cs ← matchColonCh cs
  let (v, _) ← matchDigits (skipWs cs)
  pure v

/-- Pattern 4, tried at one position: `(\d+)\s*points`. -/
def scorePat4At (cs : List Char) : Option Nat := do
  let (v, cs) ← matchDigits cs
  let _ ← matchLit "points".toList (skipWs cs)
  pure v

/-- `re.search` for one pattern: try each start position left to right and
return the first match (leftmost semantics). -/
def searchPat (p : List Char → Option Nat) : List Char → Option Nat
  | [] => p []
  | c :: cs =>
    match p (c :: cs) with
    | some v => some v
    | none => searchPat p cs

/-- `Reviewer._extract_score`: the four fallback patterns tried in order,
defaulting to 0 when none matches anywhere in the text. -/
def extract_score (s : String) : Int :=
  let cs := s.toList
  match searchPat scorePat1At cs with
  | some v => (v : Int)
  | none =>
    match searchPat scorePat2At cs with
    | some v => (v : Int)
    | none =>
      match searchPat scorePat3At cs with
      | some v => (v : Int)
      | none =>
        match searchPat scorePat4At cs with
        | some v => (v : Int)
        | none => 0

/-- Split a character list at the first occurrence of `needle`, returning
the part before it and the part after it (`needle` consumed). -/
def splitFirst (needle : List Char) : List Char → Option (List Char × List Char)
  | [] => if needle.isEmpty then some ([], []) else none
  | c :: cs =>
    if needle.isPrefixOf (c :: cs) then some ([], (c :: cs).drop needle.length)
    else
      match splitFirst needle cs with
      | some (pre, post) => some (c :: pre, post)
      | none => none

/-- Leftmost, non-greedy match of `openTag ... closeTag` (the regex
`openTag(.*?)closeTag` with `DOTALL`): the content between the first
occurrence of `openTag` and the first occurrence of `closeTag` after it. -/
def extractTagged (openTag closeTag : List Char) (cs : List Char) : Option (List Char) :=
  match splitFirst openTag cs with
  | none => none
  | some (_, rest) =>
    match splitFirst closeTag rest with
    | none => none
    | some (content, _) => some content

/-- One bounded pass of `re.sub(openTag [\s\S]*? closeTag, '', text)`:
repeatedly delete the leftmost shortest tagged block, continuing after the
deletion point.  The fuel (the text length suffices) bounds the recursion. -/
def removeTaggedGo (openTag closeTag : List Char) : Nat → List Char → List Char
  | 0, cs => cs
  | fuel + 1, cs =>
    match splitFirst openTag cs with
    | none => cs
    | some (pre, rest) =>
      match splitFirst closeTag rest with
      | none => cs
      | some (_, post) => pre ++ removeTaggedGo openTag closeTag fuel post

/-- `re.sub(openTag [\s\S]*? closeTag, '', text)`. -/
def removeTagged (openTag closeTag : List Char) (cs : List Char) : List Char :=
  removeTaggedGo openTag closeTag cs.length cs

/-- The backquote character (used by the code-fence pattern). -/
def backquote : Char := Char.ofNat 96

/-- A ``` code fence delimiter. -/
def fence : List Char := [backquote, backquote, backquote]

/-- `Translator._extract_translation`: take the `<translation>` tagged
section (stripped); if absent, delete `<context_think>` blocks and strip,
falling back to the stripped response when that leaves nothing. -/
def extract_translation (response : String) : String :=
  let cs := response.toList
  match extractTagged "<translation>".toList "</translation>".toList cs with
  | some content => String.mk (pyStripList content)
  | none =>
    let clean := pyStripList (removeTagged "<context_think>".toList "</context_think>".toList cs)
    if clean.isEmpty then String.mk (pyStripList cs) else String.mk clean

/-- `Optimizer._extract_optimized`: in fix mode first try the
`<fixed_translation>` tag, then the `<optimized>` tag; otherwise delete the
analysis block and code fences, strip, and fall back to the stripped
response. -/
def extract_optimized (response : String) (is_fix_mode : Bool) : String :=
  let cs := response.toList
  match (if is_fix_mode then
           extractTagged "<fixed_translation>".toList "</fixed_translation>".toList cs
         else none) with
  | some content => String.mk (pyStripList content)
  | none =>
    match extractTagged "<optimized>".toList "</optimized>".toList cs with
    | some content => String.mk (pyStripList content)
    | none =>
      let noAnalysis :=
        if is_fix_mode then
          removeTagged "<fix_analysis>".toList "</fix_analysis>".toList cs
        else
          removeTagged "<optimization_analysis>".toList "</optimization_analysis>".toList cs
      let clean := pyStripList (removeTagged fence fence noAnalysis)
      if clean.isEmpty then String.mk (pyStripList cs) else String.mk clean

/-- Parse result of a reviewer response whose JSON object decodes:
the fields `Reviewer.process` reads from `review_data`.  `passedField` is
the optional `"passed"` key; `issues` abstracts the issue dictionaries
(only their presence matters to the embedded control flow). -/
structure ReviewJson where
  score : Int
  passedField : Option Bool := none
  issues : List String := []
  deriving DecidableEq, Repr

/-- A reviewer model response, at the JSON-decoding boundary:
`.json d` — a response from which a JSON object is decoded to `d`;
`.text raw` — a response on which JSON decoding raises `JSONDecodeError`
(it is not valid JSON and contains no decodable embedded object). -/
inductive ReviewerResponse
  | json (d : ReviewJson)
  | text (raw : String)
  deriving DecidableEq, Repr

/-- An analyzer response at the same boundary; its decoded contents are not
read by the orchestrator's control flow. -/
inductive AnalyzerResponse
  | json
  | text
  deriving DecidableEq, Repr

/-- The text `Reviewer.process` selects for review: the translation result's
output when a translation result is present, else the optimization result's
output, else nothing (review fails with "没有可审核的译文"). -/
def reviewerInputText (c : TranslationContext) : Option String :=
  match c.translation_result with
  | some t => some t.output
  | none =>
    match c.optimization_result with
    | some o => some o.output
    | none => none

/-- The `ReviewResult` built by `Reviewer.process` on the JSON-success path:
`passed` defaults to `score >= pass_threshold` when the `"passed"` key is
absent. -/
def reviewJsonResult (passThreshold : Int) (d : ReviewJson) : AgentResult :=
  let passed := d.passedField.getD (decide (d.score ≥ passThreshold))
  { agent_name := "翻译审核专家"
    status := .completed
    output := s!"评分: {d.score}/100"
    score := some d.score
    passed := some passed
    issues := d.issues }

/-- The `ReviewResult` built by `Reviewer.process` on the
`JSONDecodeError` path: score from `_extract_score`, `passed` from the
pass threshold, status still `completed`, raw response as output. -/
def reviewTextResult (passThreshold : Int) (raw : String) : AgentResult :=
  let score := extract_score raw
  { agent_name := "翻译审核专家"
    status := .completed
    output := raw
    score := some score
    passed := some (decide (score ≥ passThreshold))
    issues := []
    error := some "JSON解析警告" }

/-- `Reviewer.process`: select the text to review, then either the JSON
path (which also assigns `context.review_result` and increments
`context.iteration_count` before returning) or the parse-failure path
(which leaves the context untouched).  Total: a parse failure never
raises. -/
def reviewerProcess (passThreshold : Int) (resp : ReviewerResponse)
    (c : TranslationContext) : AgentResult × TranslationContext :=
  match reviewerInputText c with
  | none =>
    ({ agent_name := "翻译审核专家", status := .failed,
       error := some "没有可审核的译文", passed := some false }, c)
  | some _ =>
    match resp with
    | .json d =>
      let result := reviewJsonResult passThreshold d
      (result,
       { c with review_result := some result,
                iteration_count := c.iteration_count + 1 })
    | .text raw => (reviewTextResult passThreshold raw, c)

/-- `Translator.process`: extract the translation from the response, build
a completed result and store it into `context.translation_result`. -/
def translatorProcess (response : String) (c : TranslationContext) :
    AgentResult × TranslationContext :=
  let translation := extract_translation response
  let result : AgentResult :=
    { agent_name := "翻译专家", status := .completed, output := translation }
  (result, { c with translation_result := some result })

/-- `Optimizer.process`: select the current text (optimization result first,
else translation result, else fail), extract the optimized text according to
the fix-mode flag, build a completed result and store it into
`context.optimization_result`.  (Prompt construction and the polish-type
label, which feed only strings, are not modelled.) -/
def optimizerProcess (response : String) (c : TranslationContext) :
    AgentResult × TranslationContext :=
  match (match c.optimization_result with
         | some o => some o.output
         | none =>
           match c.translation_result with
           | some t => some t.output
           | none => none) with
  | none =>
    ({ agent_name := "翻译优化专家", status := .failed,
       error := some "没有可优化的译文" }, c)
  | some _ =>
    let optimized := extract_optimized response c.fix_mode
    let result : AgentResult :=
      { agent_name := "翻译优化专家", status := .completed, output := optimized }
    (result, { c with optimization_result := some result })

/-- `SourceAnalyzer.process`: on a decoded JSON response, store the analysis
result; on a parse failure, return a completed result without touching the
context. -/
def analyzerProcess (resp : AnalyzerResponse) (c : TranslationContext) :
    AgentResult × TranslationContext :=
  match resp with
  | .json =>
    let result : AgentResult :=
      { agent_name := "原语言分析专家", status := .completed }
    (result, { c with analysis_result := some result })
  | .text =>
    ({ agent_name := "原语言分析专家", status := .completed,
       error := some "JSON parsing warning" }, c)

/-- `BaseAgent.execute` around a `process` function: a scripted `.error msg`
(the LLM call raising after the client's own retries) is caught and turned
into a failed `AgentResult` without mutating the context; otherwise the
agent's `process` runs. -/
def baseExecute (process : α → TranslationContext → AgentResult × TranslationContext)
    (agentName : String) (resp : Except String α) (c : TranslationContext) :
    AgentResult × TranslationContext :=
  match resp with
  | .error msg => ({ agent_name := agentName, status := .failed, error := some msg }, c)
  | .ok r => process r c

/-- A progress event `(stage, status, payload)` published through
`AgentOrchestrator._notify_progress`; of the payload only the `attempt`
number of `retrying` events is modelled. -/
structure Event where
  stage : String
  status : String
  attempt : Option Nat := none
  deriving DecidableEq, Repr

/-- One attempt of `agent.execute(context)` inside
`AgentOrchestrator.execute_single`: it either raises (`.raises msg`, the
Python `except Exception` branch) or returns a result, possibly mutating
the context (`.ok f`). -/
inductive AttemptOut
  | raises (msg : String)
  | ok (f : TranslationContext → AgentResult × TranslationContext)

/-- The retry loop of `AgentOrchestrator.execute_single`
(`for attempt in range(max_retries + 1)`), with fuel `max_retries + 1 -
attempt`: on success notify `completed` and return; on an exception notify
`retrying` with `attempt + 1` when retries remain; after exhaustion build
the failed result from the last error and notify `failed`.  The returned
`Nat` counts attempts made. -/
def execSingleLoop (maxRetries : Nat) (att : Nat → AttemptOut)
    (key agentName : String) :
    Nat → Nat → Option String → TranslationContext → List Event →
    AgentResult × TranslationContext × List Event × Nat
  | attempt, 0, lastError, c, evs =>
    ({ agent_name := agentName, status := .failed,
       error := some (lastError.getD "") }, c,
     evs ++ [{ stage := key, status := "failed" }], attempt)
  | attempt, fuel + 1, _lastError, c, evs =>
    match att attempt with
    | .ok f =>
      let (result, c') := f c
      (result, c', evs ++ [{ stage := key, status := "completed" }], attempt + 1)
    | .raises msg =>
      let evs' :=
        if attempt < maxRetries then
          evs ++ [{ stage := key, status := "retrying", attempt := some (attempt + 1) }]
        else evs
      execSingleLoop maxRetries att key agentName (attempt + 1) fuel (some msg) c evs'

/-- `AgentOrchestrator.execute_single` for a present agent: notify
`started`, then run the retry loop.  It never raises (total function);
returns the result, the context, the emitted events and the number of
attempts made. -/
def execute_single (maxRetries : Nat) (att : Nat → AttemptOut)
    (key agentName : String) (c : TranslationContext) :
    AgentResult × TranslationContext × List Event × Nat :=
  execSingleLoop maxRetries att key agentName 0 (maxRetries + 1) none c
    [{ stage := key, status := "started" }]

/-- The scripted LLM world of one run: for each agent role, the list of
outcomes its successive invocations consume, in program order.  An
exhausted script behaves like a raising client call. -/
structure Script where
  analyzer : List (Except String AnalyzerResponse) := []
  translator : List (Except String String) := []
  reviewer : List (Except String ReviewerResponse) := []
  optimizer : List (Except String String) := []
  deriving Repr

/-- Orchestration state threaded through a run: the shared context, the
events emitted so far, and the remaining script. -/
structure RunState where
  ctx : TranslationContext
  events : List Event := []
  script : Script
  deriving Repr

/-- Pop the next scripted analyzer outcome. -/
def popAnalyzer (s : Script) : Except String AnalyzerResponse × Script :=
  match s.analyzer with
  | [] => (.error "没有可用的LLM客户端", s)
  | r :: rest => (r, { s with analyzer := rest })

/-- Pop the next scripted translator outcome. -/
def popTranslator (s : Script) : Except String String × Script :=
  match s.translator with
  | [] => (.error "没有可用的LLM客户端", s)
  | r :: rest => (r, { s with translator := rest })

/-- Pop the next scripted reviewer outcome. -/
def popReviewer (s : Script) : Except String ReviewerResponse × Script :=
  match s.reviewer with
  | [] => (.error "没有可用的LLM客户端", s)
  | r :: rest => (r, { s with reviewer := rest })

/-- Pop the next scripted optimizer outcome. -/
def popOptimizer (s : Script) : Except String String × Script :=
  match s.optimizer with
  | [] => (.error "没有可用的LLM客户端", s)
  | r :: rest => (r, { s with optimizer := rest })

/-- `execute_single` as invoked from the orchestrator's flows, where
`agent.execute` is total (`BaseAgent.execute` absorbs every exception of
`process`), so the wrapped call succeeds on the first attempt.  The default
`retry_count` is 2. -/
def runSingle (key agentName : String)
    (exec : TranslationContext → AgentResult × TranslationContext)
    (s : RunState) : AgentResult × RunState :=
  let (result, c', evs, _) := execute_single 2 (fun _ => .ok exec) key agentName s.ctx
  (result, { s with ctx := c', events := s.events ++ evs })

/-- Append one event. -/
def emit (s : RunState) (e : Event) : RunState :=
  { s with events := s.events ++ [e] }

/-- Update the context's stage inside a run state
(`context.update_stage(...)`). -/
def updStage (s : RunState) (stage : String) : RunState :=
  { s with ctx := update_stage s.ctx stage }

/-- `AgentOrchestrator._check_review_passed`: the stored `passed` attribute
when the result exists and has one, otherwise `False`. -/
def check_review_passed : Option AgentResult → Bool
  | none => false
  | some r =>
    match r.passed with
    | some b => b
    | none => false

/-- `AgentOrchestrator._get_review_severity`: `'minor'` when the score is at
least 80, otherwise `'major'`; a missing result or missing score attribute
counts as score 0. -/
def get_review_severity : Option AgentResult → String
  | none => "major"
  | some r =>
    let score := r.score.getD 0
    if score ≥ 80 then "minor" else "major"

/-- Outcome of one pass of the iterative loop's body: `brk` models `break`
(fall through to completion), `cont stage` models `continue` with the given
`current_stage` variable, `cancel` models the `InterruptedError` raised by
`_check_stop_requested` unwinding the run. -/
inductive StepRes
  | brk (s : RunState)
  | cont (stage : String) (s : RunState)
  | cancel (s : RunState)

/-- The run state carried by a step outcome. -/
def StepRes.state : StepRes → RunState
  | .brk s => s
  | .cont _ s => s
  | .cancel s => s

/-- Whether a step outcome is a `break`. -/
def StepRes.isBrk : StepRes → Bool
  | .brk _ => true
  | _ => false

/-- Whether a step outcome is a `continue`, and to which stage. -/
def StepRes.contStage : StepRes → Option String
  | .cont stage _ => some stage
  | _ => none

/-- The mutation `context.review_result.passed = True` performed by
`_execute_fix_mode` when the fix review passes, guarded by
`if context.review_result and hasattr(context.review_result, 'passed')`. -/
def setReviewPassedTrue : Option AgentResult → Option AgentResult
  | some r => some (if r.passed.isSome then { r with passed := some true } else r)
  | none => none

/-- `AgentOrchestrator._execute_fix_mode`: set the fix-mode flag, run the
Optimizer, clear the flag; on optimizer failure return `False`; otherwise
re-run the Reviewer under the progress key `'reviewer_fix'` (the Reviewer's
own JSON path still assigns `context.review_result`); on review failure
return `False`; if the fix review passes, force `review_result.passed` to
`True` and return `True`, else notify a `reviewer_fix` `failed` event and
return `False`. -/
def execute_fix_mode (passThreshold : Int) (s : RunState) : Bool × RunState :=
  let s := { s with ctx := { s.ctx with fix_mode := true } }
  let (oresp, scr) := popOptimizer s.script
  let (optResult, s) := runSingle "optimizer" "翻译优化专家"
      (baseExecute optimizerProcess "翻译优化专家" oresp) { s with script := scr }
  let s := { s with ctx := { s.ctx with fix_mode := false } }
  if optResult.status = .failed then (false, s)
  else
    let (rresp, scr) := popReviewer s.script
    let (fixReview, s) := runSingle "reviewer_fix" "翻译审核专家"
        (baseExecute (reviewerProcess passThreshold) "翻译审核专家" rresp) { s with script := scr }
    if fixReview.status = .failed then (false, s)
    else
      let fixPassed := check_review_passed (some fixReview)
      if fixPassed then
        let s := { s with ctx := { s.ctx with
                     review_result := setReviewPassedTrue s.ctx.review_result } }
        (true, s)
      else
        let s := emit s { stage := "reviewer_fix", status := "failed" }
        (false, s)

/-- `AgentOrchestrator._perform_post_opt_review` (Reviewer present): save
the first review result, run the Reviewer under the progress key
`'reviewer2'`, restore the saved first review result and store the new one
into `review2_result`. -/
def perform_post_opt_review (passThreshold : Int) (s : RunState) :
    AgentResult × RunState :=
  let saved := s.ctx.review_result
  let (rresp, scr) := popReviewer s.script
  let (review2, s) := runSingle "reviewer2" "翻译审核专家"
      (baseExecute (reviewerProcess passThreshold) "翻译审核专家" rresp) { s with script := scr }
  let s := { s with ctx := { s.ctx with review_result := saved,
                                        review2_result := some review2 } }
  (review2, s)

/-- The Translate phase of `execute_iterative` (the body guarded by
`current_stage == 'translator'`): run the Translator (break on failure),
run the Reviewer into the first review slot (line 428 stores it even when
it is a failed result), then route: pass with score ≥ 90 skips Optimizer
and the second Reviewer and breaks; pass below 90 continues in Optimize;
a non-pass on the last iteration breaks; otherwise minor severity attempts
the fix cycle and major severity returns to Translate. -/
def translatePhase (passThreshold : Int) (maxIterations iteration : Nat)
    (s : RunState) : StepRes :=
  let s := updStage s "translator"
  let s :=
    if 0 < iteration then
      emit s { stage := "flow_control", status := "return_to_agent" }
    else s
  let (tresp, scr) := popTranslator s.script
  let (transResult, s) := runSingle "translator" "翻译专家"
      (baseExecute translatorProcess "翻译专家" tresp) { s with script := scr }
  if transResult.status = .failed then .brk s
  else
    let s := updStage s "reviewer"
    let (rresp, scr) := popReviewer s.script
    let (reviewResult, s) := runSingle "reviewer" "翻译审核专家"
        (baseExecute (reviewerProcess passThreshold) "翻译审核专家" rresp) { s with script := scr }
    let s := { s with ctx := { s.ctx with review_result := some reviewResult } }
    let score := reviewResult.score.getD 0
    let passed := check_review_passed (some reviewResult)
    let severity := get_review_severity (some reviewResult)
    if passed then
      if score ≥ 90 then
        let s := emit s { stage := "flow_control", status := "skip_stage" }
        let s := emit s { stage := "optimizer", status := "skipped" }
        let s := emit s { stage := "reviewer2", status := "skipped" }
        .brk s
      else
        .cont "optimizer" s
    else
      if iteration = maxIterations - 1 then .brk s
      else
        if severity = "minor" then
          let s := emit s { stage := "flow_control", status := "smart_routing" }
          let (fixOk, s) := execute_fix_mode passThreshold s
          if fixOk then .cont "optimizer" s else .cont "translator" s
        else
          let s := emit s { stage := "flow_control", status := "return_to_agent" }
          .cont "translator" s

/-- The Optimize phase of `execute_iterative` (the body guarded by
`current_stage == 'optimizer'`): a stop checkpoint, run the Optimizer
(break on failure), then the post-optimization review under the second
review slot; a passing second review breaks, a non-passing one breaks on
the last iteration and otherwise stays in Optimize. -/
def optimizePhase (stop : Bool) (passThreshold : Int)
    (maxIterations iteration : Nat) (s : RunState) : StepRes :=
  if stop then .cancel s
  else
    let s := updStage s "optimizer"
    let (oresp, scr) := popOptimizer s.script
    let (optResult, s) := runSingle "optimizer" "翻译优化专家"
        (baseExecute optimizerProcess "翻译优化专家" oresp) { s with script := scr }
    if optResult.status = .failed then .brk s
    else
      let s := updStage s "reviewer2"
      let s := emit s { stage := "reviewer2", status := "started" }
      let (review2, s) := perform_post_opt_review passThreshold s
      let passed2 := check_review_passed (some review2)
      if passed2 then
        let s := emit s { stage := "reviewer2", status := "completed" }
        .brk s
      else
        let s := emit s { stage := "reviewer2", status := "completed" }
        if iteration = maxIterations - 1 then .brk s
        else
          let s := emit s { stage := "flow_control", status := "return_to_agent" }
          .cont "optimizer" s

/-- One pass of the iterative loop: the top-of-loop stop checkpoint, the
iteration bookkeeping (`context.iteration_count = iteration + 1` and the
`iteration started` event), the pre-stage stop checkpoint, then the phase
selected by the `current_stage` variable. -/
def loopBody (stop : Bool) (passThreshold : Int) (maxIterations iteration : Nat)
    (stage : String) (s : RunState) : StepRes :=
  if stop then .cancel s
  else
    let s := { s with ctx := { s.ctx with iteration_count := iteration + 1 } }
    let s := emit s { stage := "iteration", status := "started" }
    if stop then .cancel s
    else
      if stage = "translator" then
        translatePhase passThreshold maxIterations iteration s
      else if stage = "optimizer" then
        optimizePhase stop passThreshold maxIterations iteration s
      else
        .cont stage s

/-- The `for iteration in range(max_iterations)` loop of
`execute_iterative`, with the `current_stage` loop variable; `.error`
carries the state at which the cancellation signal unwound. -/
def iterLoop (stop : Bool) (passThreshold : Int) (maxIterations : Nat) :
    Nat → Nat → String → RunState → Except RunState RunState
  | _, 0, _, s => .ok s
  | iteration, fuel + 1, stage, s =>
    match loopBody stop passThreshold maxIterations iteration stage s with
    | .cancel s => .error s
    | .brk s => .ok s
    | .cont stage' s => iterLoop stop passThreshold maxIterations (iteration + 1) fuel stage' s

/-- `AgentOrchestrator.execute_iterative`: pipeline/input events, the
unconditional analysis stage (its result is not examined), the bounded
loop starting in the Translate phase, then — unless cancellation unwound —
completion bookkeeping (`context.complete()`) and the closing `output` /
`pipeline` events. -/
def execute_iterative (stop : Bool) (passThreshold : Int) (s : RunState) :
    Except RunState RunState :=
  let s := emit s { stage := "pipeline", status := "started" }
  let s := emit s { stage := "input", status := "completed" }
  let s := updStage s "source_analyzer"
  let (aresp, scr) := popAnalyzer s.script
  let (_, s) := runSingle "source_analyzer" "原语言分析专家"
      (baseExecute analyzerProcess "原语言分析专家" aresp) { s with script := scr }
  let maxIterations := s.ctx.max_iterations
  match iterLoop stop passThreshold maxIterations 0 maxIterations "translator" s with
  | .error s => .error s
  | .ok s =>
    let s := { s with ctx := complete s.ctx }
    let s := emit s { stage := "output", status := "completed" }
    let s := emit s { stage := "pipeline", status := "completed" }
    .ok s

/-- Result of `TranslationPipeline.translate`: a `ValueError` raised before
any context is constructed or agent invoked; a propagated cancellation
(`InterruptedError`), after the `except` handler marked the context's stage
`'error'`; or the completed context. -/
inductive TranslateResult
  | valueError
  | cancelled (c : TranslationContext) (events : List Event)
  | ok (c : TranslationContext) (events : List Event)
  deriving Repr

/-- Whether a pipeline result is the propagated cancellation. -/
def TranslateResult.isCancelled : TranslateResult → Bool
  | .cancelled _ _ => true
  | _ => false

/-- The final context of a pipeline result (`valueError` constructs none). -/
def TranslateResult.ctxOf : TranslateResult → Option TranslationContext
  | .valueError => none
  | .cancelled c _ => some c
  | .ok c _ => some c

/-- The events of a pipeline result. -/
def TranslateResult.eventsOf : TranslateResult → List Event
  | .valueError => []
  | .cancelled _ evs => evs
  | .ok _ evs => evs

/-- `TranslationPipeline.translate` in the default iterative mode: raise
`ValueError` on empty or whitespace-only input before constructing the
context; otherwise build a fresh `TranslationContext` and run
`execute_iterative`; an escaping exception makes the handler set the
context's stage to `'error'` and re-raise. -/
def pipelineTranslate (stop : Bool) (passThreshold : Int) (maxIterations : Nat)
    (text : String) (script : Script) : TranslateResult :=
  if text = "" || pyStrip text = "" then .valueError
  else
    let ctx0 : TranslationContext := { source_text := text, max_iterations := maxIterations }
    match execute_iterative stop passThreshold { ctx := ctx0, script := script } with
    | .ok s => .ok s.ctx s.events
    | .error s => .cancelled (update_stage s.ctx "error") s.events

/-- The final run state of `execute_iterative` whether the run completed or
was unwound by cancellation. -/
def runStateOf (stop : Bool) (passThreshold : Int) (s : RunState) : RunState :=
  match execute_iterative stop passThreshold s with
  | .ok s => s
  | .error s => s

/-- Script of the skip-on-excellent scenario of the spec (max_iterations 2,
Translator returns tagged "Bonjour le monde", first review scores 95 with
no explicit pass flag). -/
def scriptExcellent : Script :=
  { analyzer := [.ok .json]
    translator := [.ok "<translation>Bonjour le monde</translation>"]
    reviewer := [.ok (.json { score := 95 })] }

/-- Initial run state for the skip-on-excellent scenario. -/
def stateExcellent : RunState :=
  { ctx := { source_text := "Hello world", max_iterations := 2 }
    script := scriptExcellent }

/-- Script of a run whose single first review reports score 95 but an
explicit `"passed": false` flag (`max_iterations` 1). -/
def scriptHighScoreNotPassed : Script :=
  { analyzer := [.ok .json]
    translator := [.ok "<translation>Bonjour le monde</translation>"]
    reviewer := [.ok (.json { score := 95, passedField := some false })] }

/-- Initial run state for the high-score-not-passed run. -/
def stateHighScoreNotPassed : RunState :=
  { ctx := { source_text := "Hello world", max_iterations := 1 }
    script := scriptHighScoreNotPassed }

/-- Initial run state of a run whose Translator's LLM call always raises
(`max_iterations` 2). -/
def stateTranslatorDown : RunState :=
  { ctx := { source_text := "Hello world", max_iterations := 2 }
    script := { analyzer := [.ok .json], translator := [.error "boom", .error "boom"] } }

/-- Initial run state of a run whose Reviewer's LLM call always raises
while the Translator works (`max_iterations` 2). -/
def stateReviewerDown : RunState :=
  { ctx := { source_text := "Hello world", max_iterations := 2 }
    script := { analyzer := [.ok .json]
                translator := [.ok "<translation>T1</translation>",
                               .ok "<translation>T2</translation>"]
                reviewer := [.error "rev down", .error "rev down"] } }

/-- A stored first review result: score 85, not passed (the minor-severity
band that sends the iterative loop into fix mode). -/
def firstReview85 : AgentResult :=
  { agent_name := "翻译审核专家", status := .completed,
    output := "评分: 85/100", score := some 85, passed := some false }

/-- A context mid-run: translation done, first review 85/not-passed stored —
the state from which `_execute_fix_mode` is entered. -/
def ctxBeforeFix : TranslationContext :=
  { source_text := "src"
    translation_result := some { agent_name := "翻译专家", status := .completed, output := "T1" }
    review_result := some firstReview85 }

/-- Run state entering fix mode: Optimizer answers with a tagged fix,
the fix re-review parses as JSON with score 85 (passing by default). -/
def stateFixMode : RunState :=
  { ctx := ctxBeforeFix
    script := { optimizer := [.ok "<fixed_translation>F</fixed_translation>"]
                reviewer := [.ok (.json { score := 85 })] } }

/-- A context holding both a translation output and a later optimization
output — the state in which the post-optimization review runs. -/
def ctxBothOutputs : TranslationContext :=
  { source_text := "src"
    translation_result := some { agent_name := "翻译专家", status := .completed,
                                 output := "译文一" }
    optimization_result := some { agent_name := "翻译优化专家", status := .completed,
                                  output := "译文二" } }

/-! ## Theorems -/

/-- Shared: `execute_single` with a total agent (as produced by
`BaseAgent.execute`) succeeds on its first attempt, emitting exactly the
`started` and `completed` events. -/
theorem runSingle_eq (key agentName : String)
    (exec : TranslationContext → AgentResult × TranslationContext) (s : RunState) :
    runSingle key agentName exec s =
      ((exec s.ctx).1,
       { s with ctx := (exec s.ctx).2,
                events := s.events ++ [{ stage := key, status := "started" },
                                       { stage := key, status := "completed" }] }) := by
  simp only [runSingle, execute_single, execSingleLoop]
  rfl

/-- Shared: the events and attempt count of the all-raising retry loop,
by induction on the remaining fuel. -/
theorem execSingleLoop_raises (maxRetries : Nat) (msgs : Nat → String)
    (key agentName : String) :
    ∀ (fuel attempt : Nat) (lastError : Option String)
      (c : TranslationContext) (evs : List Event),
      attempt + fuel = maxRetries + 1 →
      execSingleLoop maxRetries (fun i => .raises (msgs i)) key agentName
          attempt fuel lastError c evs =
        ({ agent_name := agentName, status := .failed,
           error := some (if fuel = 0 then lastError.getD "" else msgs maxRetries) }, c,
         evs ++ ((List.range' attempt (maxRetries - attempt)).map fun i =>
                   { stage := key, status := "retrying", attempt := some (i + 1) }) ++
           [{ stage := key, status := "failed" }],
         maxRetries + 1) := by
  intro fuel
  induction fuel with
  | zero =>
    intro attempt lastError c evs h
    have ha : attempt = maxRetries + 1 := by omega
    have hr : maxRetries - attempt = 0 := by omega
    subst ha
    simp [execSingleLoop, hr]
  | succ n ih =>
    intro attempt lastError c evs h
    simp only [execSingleLoop]
    rcases Nat.eq_or_lt_of_le (by omega : attempt ≤ maxRetries) with heq | hlt
    · subst heq
      rw [if_neg (lt_irrefl _)]
      rw [ih _ _ _ _ (by omega)]
      have hn : n = 0 := by omega
      subst hn
      simp
    · rw [if_pos hlt]
      rw [ih _ _ _ _ (by omega)]
      have hfz : ¬ (n + 1 = 0) := by omega
      have hspan : maxRetries - attempt = (maxRetries - (attempt + 1)) + 1 := by omega
      rw [hspan, List.range'_succ]
      have hnz : ¬ (n = 0) := by omega
      simp [hnz]

/-- C1: an agent whose `execute` raises on every attempt is attempted
exactly `retry_count + 1` times by `AgentOrchestrator.execute_single`:
one `started` event before the first attempt, exactly `retry_count`
`retrying` events carrying the attempt numbers 1..retry_count, then one
`failed` event and a returned `AgentResult` with status `failed` (the
function is total — nothing propagates to the caller). -/
theorem execute_single_retry_exhaustion (maxRetries : Nat) (msgs : Nat → String)
    (key agentName : String) (c : TranslationContext) :
    execute_single maxRetries (fun i => .raises (msgs i)) key agentName c =
      ({ agent_name := agentName, status := .failed, error := some (msgs maxRetries) }, c,
       { stage := key, status := "started" } ::
         (((List.range maxRetries).map fun i =>
             { stage := key, status := "retrying", attempt := some (i + 1) }) ++
          [{ stage := key, status := "failed" }]),
       maxRetries + 1) := by
  rw [execute_single,
    execSingleLoop_raises maxRetries msgs key agentName (maxRetries + 1) 0 none c _ (by omega)]
  simp [List.range_eq_range']

/-- C4: `get_final_translation` returns the optimization result's output
when present and non-empty, else the translation result's output when
present and non-empty, else the empty string — it coincides with the
function read off the spec's invariant. -/
theorem get_final_translation_spec (c : TranslationContext) :
    get_final_translation c = specFinalTranslation c := by
  unfold get_final_translation specFinalTranslation truthyOutput
  cases c.optimization_result <;> cases c.translation_result <;>
    first
      | rfl
      | (split_ifs <;> simp_all)

/-- C6: at a context holding both a translation output and a later
optimization output (the situation of the post-optimization review),
`Reviewer.process` selects the translation result's output, not the
more recent optimization output — contradicting the reviewer contract and
`_perform_post_opt_review`'s own documentation. -/
theorem reviewer_reads_translation_first :
    reviewerInputText ctxBothOutputs = some "译文一" ∧
    ctxBothOutputs.optimization_result.map AgentResult.output = some "译文二" ∧
    ("译文一" : String) ≠ "译文二" := by
  refine ⟨rfl, rfl, ?_⟩
  decide

/-- Shared: an all-whitespace string strips to the empty string. -/
theorem pyStrip_all_space (text : String) (h : text.toList.all pyIsSpace = true) :
    pyStrip text = "" := by
  have h1 : List.dropWhile pyIsSpace text.data = [] :=
    List.dropWhile_eq_nil_iff.mpr fun x hx => List.all_eq_true.mp h x hx
  simp [pyStrip, pyStripList, String.toList, h1]

/-- C10: for every input that is empty or consists only of whitespace,
`TranslationPipeline.translate` raises `ValueError` before any context is
constructed and before any agent runs: no events, no context. -/
theorem translate_rejects_blank_input (stop : Bool) (passThreshold : Int)
    (maxIterations : Nat) (text : String) (script : Script)
    (h : text.toList.all pyIsSpace = true) :
    pipelineTranslate stop passThreshold maxIterations text script = .valueError ∧
    (pipelineTranslate stop passThreshold maxIterations text script).eventsOf = [] ∧
    (pipelineTranslate stop passThreshold maxIterations text script).ctxOf = none := by
  have hs : pyStrip text = "" := pyStrip_all_space text h
  refine ⟨?_, ?_, ?_⟩ <;> simp [pipelineTranslate, hs, TranslateResult.eventsOf, TranslateResult.ctxOf]

/-- C10 witness: the whitespace-only input `"  \t\n"` is rejected. -/
theorem translate_rejects_blank_input_witness :
    ("  \t\n".toList.all pyIsSpace = true) ∧
    pipelineTranslate false 80 3 "  \t\n" { } = .valueError := by
  refine ⟨by decide, ?_⟩
  exact (translate_rejects_blank_input false 80 3 "  \t\n" { } (by decide)).1

/-- C8: for every reviewer response that is not valid JSON (the decode
raises `JSONDecodeError`), `Reviewer.process` does not raise: it returns a
result with status `completed`, the score produced by the `_extract_score`
fallback patterns (0 when none matches), and the pass flag computed from
that score and the pass threshold; the context is left untouched. -/
theorem reviewer_malformed_response_completed (passThreshold : Int) (raw : String)
    (c : TranslationContext) (t : String) (h : reviewerInputText c = some t) :
    reviewerProcess passThreshold (.text raw) c = (reviewTextResult passThreshold raw, c) ∧
    (reviewTextResult passThreshold raw).status = .completed ∧
    (reviewTextResult passThreshold raw).score = some (extract_score raw) ∧
    (reviewTextResult passThreshold raw).passed =
      some (decide (extract_score raw ≥ passThreshold)) := by
  refine ⟨?_, rfl, rfl, rfl⟩
  simp [reviewerProcess, h]

/-- C8 witness: a prose response carrying `Total: 73` is scored 73 by the
fallback patterns and does not pass at threshold 80; a patternless response
defaults to score 0. -/
theorem reviewer_malformed_response_completed_witness :
    (reviewerInputText ctxBeforeFix = some "T1") ∧
    reviewerProcess 80 (.text "审核意见 Total: 73 (needs work)") ctxBeforeFix =
      (reviewTextResult 80 "审核意见 Total: 73 (needs work)", ctxBeforeFix) ∧
    extract_score "审核意见 Total: 73 (needs work)" = 73 ∧
    (reviewTextResult 80 "审核意见 Total: 73 (needs work)").passed = some false ∧
    extract_score "no признак of a score" = 0 := by
  refine ⟨rfl,
    (reviewer_malformed_response_completed 80 "审核意见 Total: 73 (needs work)"
      ctxBeforeFix "T1" rfl).1, by decide, ?_, by decide⟩
  have hs : extract_score "审核意见 Total: 73 (needs work)" = 73 := by decide
  simp [reviewTextResult, hs]

/-- C3: the skip-on-excellent scenario (max_iterations 2, first review
scores 95): the run does skip Optimizer and the second Reviewer and the
final translation is the Translator's output, but `iteration_count` ends at
2, not 1 — the loop head assigns `iteration + 1 = 1` and `Reviewer.process`
then increments the counter again on its JSON-success path. -/
theorem iteration_count_double_increment :
    (runStateOf false 80 stateExcellent).ctx.iteration_count = 2 ∧
    get_final_translation (runStateOf false 80 stateExcellent).ctx = "Bonjour le monde" ∧
    { stage := "optimizer", status := "skipped", attempt := none } ∈
      (runStateOf false 80 stateExcellent).events := by
  refine ⟨rfl, rfl, by decide⟩

/-- C2 counterexample: a run whose first review reports score 95 together
with an explicit `"passed": false` flag takes the not-passed branch: the
stored first review carries score 95 ≥ 90, yet no `skipped` event is ever
emitted for the Optimizer or the second Reviewer. -/
theorem high_score_not_passed_no_skip :
    ((runStateOf false 80 stateHighScoreNotPassed).ctx.review_result.map
        AgentResult.score) = some (some 95) ∧
    { stage := "optimizer", status := "skipped", attempt := none } ∉
      (runStateOf false 80 stateHighScoreNotPassed).events ∧
    { stage := "reviewer2", status := "skipped", attempt := none } ∉
      (runStateOf false 80 stateHighScoreNotPassed).events := by
  refine ⟨rfl, by decide, by decide⟩

/-- C7 counterexample: in iterative mode a Translator whose attempts all
fail breaks the loop, after which `context.complete()` still runs: the
terminal marker is `"completed"`, not a failed state (the run did stop —
the Reviewer never started). -/
theorem translator_failure_marks_completed :
    (runStateOf false 80 stateTranslatorDown).ctx.current_stage = "completed" ∧
    (runStateOf false 80 stateTranslatorDown).ctx.current_stage ≠ "failed" ∧
    { stage := "reviewer", status := "started", attempt := none } ∉
      (runStateOf false 80 stateTranslatorDown).events := by
  refine ⟨rfl, by decide, by decide⟩

/-- Shared: status constructors are distinct. -/
theorem status_ne_failed : (AgentStatus.completed = AgentStatus.failed) = False := by
  simp

/-- Shared: when the optimization slot holds no non-empty output, the final
translation is the stored translation result's output (also when that
output is itself empty). -/
theorem get_final_of_translation (c : TranslationContext) (r : AgentResult)
    (h1 : c.translation_result = some r)
    (h2 : truthyOutput c.optimization_result = false) :
    get_final_translation c = r.output := by
  simp only [get_final_translation, h2, h1, if_false, Bool.false_eq_true]
  by_cases he : r.output = "" <;> simp [truthyOutput, he]

/-- C2 (amended): in the Translate phase, whenever the review response
decodes to JSON whose effective pass flag is true (the explicit `"passed"`
key, defaulting to score ≥ pass_threshold) AND the score is ≥ 90, the
orchestrator emits the `skip_stage` flow event and `skipped` events for the
Optimizer and the second Reviewer and breaks the loop; the optimization
slot is untouched, and when it holds no non-empty output the final
translation equals the Translator's output of this iteration. -/
theorem skip_on_excellent (passThreshold : Int) (maxIterations iteration : Nat)
    (s : RunState) (traw : String) (ts : List (Except String String))
    (d : ReviewJson) (rs : List (Except String ReviewerResponse))
    (ht : s.script.translator = .ok traw :: ts)
    (hr : s.script.reviewer = .ok (.json d) :: rs)
    (hp : d.passedField.getD (decide (d.score ≥ passThreshold)) = true)
    (h90 : (90 : Int) ≤ d.score) :
    (translatePhase passThreshold maxIterations iteration s).isBrk = true ∧
    (translatePhase passThreshold maxIterations iteration s).state.events =
      s.events ++
      (if 0 < iteration then [{ stage := "flow_control", status := "return_to_agent" }] else []) ++
      [{ stage := "translator", status := "started" },
       { stage := "translator", status := "completed" },
       { stage := "reviewer", status := "started" },
       { stage := "reviewer", status := "completed" },
       { stage := "flow_control", status := "skip_stage" },
       { stage := "optimizer", status := "skipped" },
       { stage := "reviewer2", status := "skipped" }] ∧
    (translatePhase passThreshold maxIterations iteration s).state.ctx.optimization_result =
      s.ctx.optimization_result ∧
    (truthyOutput s.ctx.optimization_result = false →
      get_final_translation (translatePhase passThreshold maxIterations iteration s).state.ctx =
        extract_translation traw) := by
  by_cases hi : 0 < iteration <;>
  · simp only [translatePhase, updStage, emit, update_stage, hi, if_true, if_false,
      popTranslator, popReviewer, ht, hr, runSingle_eq, baseExecute, translatorProcess,
      reviewerProcess, reviewerInputText, reviewJsonResult, check_review_passed,
      get_review_severity, hp, status_ne_failed, Option.getD_some, ge_iff_le, h90,
      ite_true, ite_false, StepRes.isBrk, StepRes.state]
    refine ⟨trivial, by simp, trivial, fun h => ?_⟩
    exact get_final_of_translation _
      { agent_name := "翻译专家", status := .completed, output := extract_translation traw }
      rfl h

/-- C2 witness: the skip-on-excellent scenario (threshold 80, first
iteration, review JSON score 95 without a `"passed"` key) skips Optimizer
and the second Reviewer, and the final translation is "Bonjour le monde". -/
theorem skip_on_excellent_witness :
    ((({ score := 95 } : ReviewJson).passedField.getD (decide ((95 : Int) ≥ 80))) = true) ∧
    ((translatePhase 80 2 0 stateExcellent).isBrk = true ∧
     (translatePhase 80 2 0 stateExcellent).state.events =
       stateExcellent.events ++
       (if 0 < 0 then [{ stage := "flow_control", status := "return_to_agent" }] else []) ++
       [{ stage := "translator", status := "started" },
        { stage := "translator", status := "completed" },
        { stage := "reviewer", status := "started" },
        { stage := "reviewer", status := "completed" },
        { stage := "flow_control", status := "skip_stage" },
        { stage := "optimizer", status := "skipped" },
        { stage := "reviewer2", status := "skipped" }] ∧
     (translatePhase 80 2 0 stateExcellent).state.ctx.optimization_result =
       stateExcellent.ctx.optimization_result ∧
     (truthyOutput stateExcellent.ctx.optimization_result = false →
       get_final_translation (translatePhase 80 2 0 stateExcellent).state.ctx =
         extract_translation "<translation>Bonjour le monde</translation>")) :=
  ⟨by decide,
   skip_on_excellent 80 2 0 stateExcellent
     "<translation>Bonjour le monde</translation>" [] { score := 95 } []
     rfl rfl (by decide) (by decide)⟩

/-- C5 counterexample: entering fix mode with a stored first review
(score 85, not passed), a fix re-review that parses as JSON replaces
`context.review_result`: after `_execute_fix_mode` the slot no longer holds
the first review (it holds the fix review with `passed` forced to `True`). -/
theorem fix_mode_overwrites_first_review :
    stateFixMode.ctx.review_result = some firstReview85 ∧
    (execute_fix_mode 80 stateFixMode).2.ctx.review_result ≠ some firstReview85 := by
  refine ⟨rfl, by decide⟩

/-- C5 (amended): the post-optimization review does keep the two review
slots separate — `_perform_post_opt_review` restores the first review and
stores the new one into `review2_result` — but the fix-mode re-review has
no slot of its own: when it parses as JSON and passes, `Reviewer.process`
overwrites `context.review_result` with the fix-review result, whose
`passed` flag `_execute_fix_mode` then forces to `True`. -/
theorem review_slot_preservation :
    (∀ (passThreshold : Int) (s : RunState),
       (perform_post_opt_review passThreshold s).2.ctx.review_result = s.ctx.review_result ∧
       (perform_post_opt_review passThreshold s).2.ctx.review2_result =
         some (perform_post_opt_review passThreshold s).1) ∧
    (∀ (passThreshold : Int) (s : RunState) (tr : AgentResult)
       (oraw : String) (os : List (Except String String))
       (d : ReviewJson) (rs : List (Except String ReviewerResponse)),
       s.ctx.translation_result = some tr →
       s.script.optimizer = .ok oraw :: os →
       s.script.reviewer = .ok (.json d) :: rs →
       d.passedField.getD (decide (d.score ≥ passThreshold)) = true →
       (execute_fix_mode passThreshold s).1 = true ∧
       (execute_fix_mode passThreshold s).2.ctx.review_result =
         some { reviewJsonResult passThreshold d with passed := some true }) := by
  constructor
  · exact fun _ _ => ⟨rfl, rfl⟩
  · intro passThreshold s tr oraw os d rs htr ho hr hp
    rcases hopt : s.ctx.optimization_result with _ | o <;>
    · simp only [execute_fix_mode, popOptimizer, popReviewer, ho, hr, runSingle_eq,
        baseExecute, optimizerProcess, reviewerProcess, reviewerInputText, htr, hopt,
        check_review_passed, reviewJsonResult, setReviewPassedTrue, hp,
        status_ne_failed, ite_true, ite_false, if_true, if_false]
      exact ⟨trivial, by simp⟩

/-- C5 witness: both parts of the amended claim at the fix-mode fixture:
the post-optimization review there leaves the first review slot unchanged,
while fix mode succeeds and rewrites the slot with the passed-forced fix
review. -/
theorem review_slot_preservation_witness :
    ((perform_post_opt_review 80 stateFixMode).2.ctx.review_result =
       stateFixMode.ctx.review_result ∧
     (perform_post_opt_review 80 stateFixMode).2.ctx.review2_result =
       some (perform_post_opt_review 80 stateFixMode).1) ∧
    (stateFixMode.ctx.translation_result =
       some { agent_name := "翻译专家", status := .completed, output := "T1" } ∧
     ((execute_fix_mode 80 stateFixMode).1 = true ∧
      (execute_fix_mode 80 stateFixMode).2.ctx.review_result =
        some { reviewJsonResult 80 { score := 85 } with passed := some true })) :=
  ⟨review_slot_preservation.1 80 stateFixMode,
   rfl,
   review_slot_preservation.2 80 stateFixMode
     { agent_name := "翻译专家", status := .completed, output := "T1" }
     "<fixed_translation>F</fixed_translation>" [] { score := 85 } []
     rfl rfl rfl (by decide)⟩

/-- Shared: the two severity labels differ. -/
theorem major_ne_minor : (("major" : String) = "minor") = False := by
  simp

/-- C7 (amended): in the iterative Translate phase, a failed Translator
result breaks the loop (after which the run is still marked `"completed"`
by `context.complete()`, not a failed state — see the counterexample),
while a failed first-Reviewer result does not terminate the run: it is
treated as score 0 / not passed / major severity, and with iterations
remaining the loop continues back in the Translate stage. -/
theorem stage_failure_routing :
    (∀ (passThreshold : Int) (maxIterations iteration : Nat) (s : RunState)
       (msg : String) (ts : List (Except String String)),
       s.script.translator = .error msg :: ts →
       (translatePhase passThreshold maxIterations iteration s).isBrk = true) ∧
    (∀ (passThreshold : Int) (maxIterations iteration : Nat) (s : RunState)
       (traw : String) (ts : List (Except String String))
       (msg : String) (rs : List (Except String ReviewerResponse)),
       s.script.translator = .ok traw :: ts →
       s.script.reviewer = .error msg :: rs →
       iteration + 1 < maxIterations →
       (translatePhase passThreshold maxIterations iteration s).contStage =
         some "translator") := by
  constructor
  · intro passThreshold maxIterations iteration s msg ts ht
    by_cases hi : 0 < iteration <;>
    · simp [translatePhase, updStage, emit, update_stage, hi, popTranslator, ht,
        runSingle_eq, baseExecute, StepRes.isBrk]
  · intro passThreshold maxIterations iteration s traw ts msg rs ht hr hlt
    have hne : ¬ (iteration = maxIterations - 1) := by omega
    by_cases hi : 0 < iteration <;>
    · simp only [translatePhase, updStage, emit, update_stage, hi, if_true, if_false,
        popTranslator, popReviewer, ht, hr, runSingle_eq, baseExecute, translatorProcess,
        reviewerProcess, reviewerInputText, check_review_passed, get_review_severity,
        status_ne_failed, major_ne_minor, hne, Option.getD_some, ite_true, ite_false,
        StepRes.contStage]
      simp

/-- C7 witness: with the translator's client down the phase breaks
immediately; with the translator healthy but the reviewer's client down
(and an iteration remaining) the phase continues back to the Translate
stage instead of terminating. -/
theorem stage_failure_routing_witness :
    (stateTranslatorDown.script.translator = .error "boom" :: [.error "boom"] ∧
     (translatePhase 80 2 0 stateTranslatorDown).isBrk = true) ∧
    ((0 : Nat) + 1 < 2 ∧
     (translatePhase 80 2 0 stateReviewerDown).contStage = some "translator") :=
  ⟨⟨rfl,
    stage_failure_routing.1 80 2 0 stateTranslatorDown "boom" [.error "boom"] rfl⟩,
   ⟨by decide,
    stage_failure_routing.2 80 2 0 stateReviewerDown "<translation>T1</translation>"
      [.ok "<translation>T2</translation>"] "rev down" [.error "rev down"] rfl rfl
      (by decide)⟩⟩

/-- C9: with the stop flag set before the run's first stage-boundary
checkpoint (the top of the iterative loop), the run unwinds through the
cancellation signal before the Translate stage executes: the only events
are the pipeline/input/analysis ones emitted before the checkpoint — no
translator event and nothing after the cancellation point — and the final
context marker set by the facade's handler is `"error"`, not the
`"completed"` marker of a normal exit. -/
theorem cancellation_halts_run (passThreshold : Int) (maxIterations : Nat)
    (text : String) (script : Script)
    (hmi : 0 < maxIterations) (h1 : text ≠ "") (h2 : pyStrip text ≠ "") :
    (pipelineTranslate true passThreshold maxIterations text script).isCancelled = true ∧
    (pipelineTranslate true passThreshold maxIterations text script).eventsOf =
      [{ stage := "pipeline", status := "started" },
       { stage := "input", status := "completed" },
       { stage := "source_analyzer", status := "started" },
       { stage := "source_analyzer", status := "completed" }] ∧
    ((pipelineTranslate true passThreshold maxIterations text script).ctxOf.map
       TranslationContext.current_stage) = some "error" ∧
    ("error" : String) ≠ "completed" := by
  obtain ⟨n, rfl⟩ : ∃ n, maxIterations = n + 1 := ⟨maxIterations - 1, by omega⟩
  rcases hsa : script.analyzer with _ | ⟨resp, rest⟩
  all_goals try rcases resp with msg | a
  all_goals try rcases a with _ | _
  all_goals refine ⟨?_, ?_, ?_, by decide⟩ <;>
    simp [pipelineTranslate, h1, h2, execute_iterative, emit, updStage, update_stage,
      popAnalyzer, hsa, runSingle_eq, baseExecute, analyzerProcess, iterLoop, loopBody,
      TranslateResult.isCancelled, TranslateResult.eventsOf, TranslateResult.ctxOf]

/-- C9 witness: a stop requested before a run on "Hello world" cancels at
the first loop checkpoint with exactly the four pre-loop events and the
`"error"` marker. -/
theorem cancellation_halts_run_witness :
    ((0 : Nat) < 3 ∧ ("Hello world" : String) ≠ "" ∧ pyStrip "Hello world" ≠ "") ∧
    ((pipelineTranslate true 80 3 "Hello world" scriptExcellent).isCancelled = true ∧
     (pipelineTranslate true 80 3 "Hello world" scriptExcellent).eventsOf =
       [{ stage := "pipeline", status := "started" },
        { stage := "input", status := "completed" },
        { stage := "source_analyzer", status := "started" },
        { stage := "source_analyzer", status := "completed" }] ∧
     ((pipelineTranslate true 80 3 "Hello world" scriptExcellent).ctxOf.map
        TranslationContext.current_stage) = some "error" ∧
     ("error" : String) ≠ "completed") :=
  ⟨⟨by decide, by decide, by decide⟩,
   cancellation_halts_run 80 3 "Hello world" scriptExcellent (by decide) (by decide)
     (by decide)⟩

end AIAgentTranslator
